import Mathlib

/-!
# Verification development for `207281_iot_exp_2.cc`

The program is one `main` that configures a wireless sensor network scenario and
hands the configuration to an external simulation framework.  The embedding below
follows `main` statement by statement and returns, as a `Scenario`, everything
`main` has handed to the framework when it reaches `Simulator::Run`.

* Values of C++ type `double` and `float` are carried as integers counting units of
  `2 ^ (-1074)` (the least positive `double`), so every finite value of either
  type is an integer.  The two places where the C++ code rounds (the `double`
  addition and the conversion of its result to `float`, both inside `+=`) round
  explicitly, to nearest with ties to even.
* The two loops of `main` are run with fuel; the result `none` means the fuel ran out.
* Framework objects (containers, helpers, the echo client) are records or lists,
  with the operations `main` calls on them as functions.  A call the framework
  answers with a fatal error ends the program, which is the result `none` as well.
* The log components registered by the framework modules linked into the program
  are not part of the source file; `main` takes their names as `components`.
* Messages written to the console or to the log are not part of the record.
-/

namespace IotExp2

/-! ## Binary floating point, as far as `main` needs it -/

/-- Number of binary places behind the point of the unit in which `double` and
`float` values are counted. -/
def scale : Nat := 1074

/-- The floating value of an integer literal such as `10.0`. -/
def lit (z : Int) : Int := z * ((1 <<< scale : Nat) : Int)

/-- Position of the highest set bit of `n`, found by trying the shifts
`2 ^ (k - 1)`, ..., `2`, `1` in turn; exact for `n < 2 ^ 2 ^ k`. -/
def bitLog : Nat → Nat → Nat
  | 0, _ => 0
  | k + 1, n =>
    let s := 1 <<< k
    if n >>> s = 0 then bitLog k n else s + bitLog k (n >>> s)

/-- Nearest multiple of `q` to `n`, ties going to the even multiple. -/
def roundHalfEven (n : Int) (q : Nat) : Int :=
  let f : Int := n / (q : Int)
  let r : Int := n % (q : Int)
  if 2 * r < q then f * q
  else if (q : Int) < 2 * r then (f + 1) * q
  else if f % 2 = 0 then f * q else (f + 1) * q

/-- Round to the nearest value of the binary format with `prec` significant bits
and least normal exponent `emin`.  Every value `main` computes is below `2 ^ 7`,
so the overflow to infinity of the format is never reached and is left out. -/
def roundBinary (prec : Nat) (emin : Int) (n : Int) : Int :=
  if n = 0 then 0
  else
    let top : Nat := max (bitLog 12 n.natAbs) (emin + scale).toNat
    roundHalfEven n (1 <<< (top - (prec - 1)))

/-- Rounding to C++ `double` (binary64). -/
def toDouble (n : Int) : Int := roundBinary 53 (-1022) n

/-- Rounding to C++ `float` (binary32). -/
def toFloat (n : Int) : Int := roundBinary 24 (-126) n

/-- The compound assignment `f += d` for a `float f` and a `double d`: the sum is
formed in `double` and the result converted back to `float`. -/
def floatAddAssign (f d : Int) : Int := toFloat (toDouble (f + d))

/-! ## Framework objects -/

/-- The framework's `Vector`: three `double` coordinates. -/
structure Vector where
  x : Int
  y : Int
  z : Int
deriving DecidableEq

/-- The framework's `Time`, as the number of seconds it was made from. -/
structure Time where
  seconds : Int
deriving DecidableEq

/-- The framework's `Seconds (double)`. -/
def Seconds (d : Int) : Time := ⟨d⟩

/-- Log levels `main` passes to `LogComponentEnable`. -/
inductive LogLevel where
  | LOG_LEVEL_INFO
  | LOG_LEVEL_ALL
deriving DecidableEq

/-- A node, known by its index of creation. -/
structure Node where
  id : Nat
deriving DecidableEq

/-- The call `NodeContainer::Create (n)`: appends `n` fresh nodes. -/
def NodeContainer.Create (c : List Node) (n : Nat) : List Node :=
  c ++ (List.range n).map fun k => ⟨c.length + k⟩

/-- The call `NodeContainer::Get (i)`; an index outside the container has no node. -/
def NodeContainer.Get (c : List Node) (i : Nat) : Option Node := c.get? i

/-- A net device, with the node it was installed on. -/
structure NetDevice where
  node : Node
deriving DecidableEq

/-- The call `LrWpanHelper::Install (NodeContainer)`: one device per node, in container order. -/
def LrWpanHelper.Install (c : List Node) : List NetDevice := c.map fun n => ⟨n⟩

/-- The call `SixLowPanHelper::Install (NetDeviceContainer)`: one 6LoWPAN device on top of
each given device, in container order, on the same node. -/
def SixLowPanHelper.Install (c : List NetDevice) : List NetDevice := c.map fun d => ⟨d.node⟩

/-- An IPv6 interface, with the device it was assigned to. -/
structure Ipv6Interface where
  device : NetDevice
deriving DecidableEq

/-- The call `Ipv6AddressHelper::Assign (NetDeviceContainer)`: one interface per device, in
container order. -/
def Ipv6AddressHelper.Assign (c : List NetDevice) : List Ipv6Interface := c.map fun d => ⟨d⟩

/-- An address of an interface container: which interface, and which of its
addresses. -/
structure Address where
  interfaceIndex : Nat
  addressIndex : Nat
  interface : Ipv6Interface
deriving DecidableEq

/-- The call `Ipv6InterfaceContainer::GetAddress (i, j)`: address `j` of interface `i`. -/
def Ipv6InterfaceContainer.GetAddress (c : List Ipv6Interface) (i j : Nat) : Option Address :=
  (c.get? i).map fun f => ⟨i, j, f⟩

/-- The call `MobilityHelper::Install (NodeContainer)` with a list position allocator: the
nodes take the stored positions in order, the allocator starting over when it
reaches the end of its list.  The result holds the position of every node. -/
def MobilityHelper.Install (alloc : List Vector) : Nat → List Node → Option (List Vector)
  | _, [] => some []
  | cursor, _ :: rest =>
    match alloc.get? (cursor % alloc.length), MobilityHelper.Install alloc (cursor + 1) rest with
    | some p, some ps => some (p :: ps)
    | _, _ => none

/-- Values of the attributes `main` sets on the echo client. -/
inductive AttributeValue where
  | UintegerValue (n : Nat)
  | TimeValue (t : Time)
deriving DecidableEq

/-- The framework's UDP echo client: its attributes and its fill data. -/
structure UdpEchoClient where
  MaxPackets : Nat
  Interval : Time
  RemoteAddress : Address
  RemotePort : Nat
  PacketSize : Nat
  data : Option String
  dataSize : Nat
deriving DecidableEq

/-- The constructor `UdpEchoClientHelper (address, port)`: a client with the remote end set and the
framework's defaults for the other attributes. -/
def UdpEchoClientHelper.new (address : Address) (port : Nat) : UdpEchoClient :=
  { MaxPackets := 100, Interval := Seconds (lit 1), RemoteAddress := address,
    RemotePort := port, PacketSize := 100, data := none, dataSize := 0 }

/-- The call `UdpEchoClientHelper::SetAttribute (name, value)` for the attributes `main`
sets; another name or a value of the wrong kind is refused. -/
def UdpEchoClientHelper.SetAttribute (c : UdpEchoClient) (name : String) (v : AttributeValue) :
    Option UdpEchoClient :=
  match v with
  | .UintegerValue n =>
    if name = "MaxPackets" then some { c with MaxPackets := n }
    else if name = "PacketSize" then some { c with PacketSize := n }
    else none
  | .TimeValue t =>
    if name = "Interval" then some { c with Interval := t } else none

/-- The call `UdpEchoClientHelper::SetFill (app, std::string)`.  This is code of the
external framework, not of the program.  The framework documents that the fill of
the packet is set to the zero-terminated contents of the string and that the size of
the echo packets is adjusted to the size of the fill, so that the `PacketSize`
attribute may change as a result of the call.  The client keeps the string, and both
its data size and its packet size become the length of the string plus one for the
terminating zero. -/
def UdpEchoClientHelper.SetFill (c : UdpEchoClient) (fill : String) : UdpEchoClient :=
  { c with data := some fill, dataSize := fill.utf8ByteSize + 1,
           PacketSize := fill.utf8ByteSize + 1 }

/-- An installed application: the node it runs on and its start and stop times. -/
structure Installed (α : Type) where
  app : α
  node : Node
  startTime : Time
  stopTime : Time
deriving DecidableEq

/-- The framework's UDP echo server, with its listening port. -/
structure UdpEchoServer where
  Port : Nat
deriving DecidableEq

/-- The call `AnimationInterface::SetConstantPosition (node, x, y)`, the third coordinate
taking its default `0`: the position of the node is overwritten. -/
def SetConstantPosition (positions : List Vector) (n : Node) (x y : Int) : List Vector :=
  positions.set n.id ⟨x, y, lit 0⟩

/-! ## The program -/

/-- The calls `CommandLine::AddValue` and `Parse` for the one flag of the program: the
variable keeps its initial value unless the command line gives the flag a value. -/
def CommandLine.Parse (given : Option Bool) (initial : Bool) : Bool := given.getD initial

/-- Everything `main` has handed to the framework when it calls `Simulator::Run`. -/
structure Scenario where
  verbose : Bool
  logComponents : List (String × LogLevel)
  nodes : List Node
  seed : Nat
  mobilityModel : String
  nodesPositionAlloc : List Vector
  mobilityPositions : List Vector
  devContainer : List NetDevice
  panId : Nat
  ipv4StackInstall : Bool
  six1 : List NetDevice
  ipv6Network : String
  ipv6PrefixLength : Nat
  i : List Ipv6Interface
  servAddr : Address
  port : Nat
  server : Installed UdpEchoServer
  clientAttributes : UdpEchoClient
  client : Installed UdpEchoClient
  asciiTraceFile : String
  pcapFiles : String
  pcapPromiscuous : Bool
  animFile : String
  animCalls : List (Node × Vector)
  nodePositions : List Vector
deriving DecidableEq

/-- The loop `for (float i = 0.0; i < 100.0; i += 10.0) nodesPositionAlloc->Add (Vector (i, 0.0, 0.0));`
from the state in which the counter is `i` and the allocator holds `alloc`. -/
def positionLoop : Nat → Int → List Vector → Option (List Vector)
  | 0, _, _ => none
  | fuel + 1, i, alloc =>
    if i < lit 100 then
      positionLoop fuel (floatAddAssign i (lit 10)) (alloc ++ [⟨i, lit 0, lit 0⟩])
    else some alloc

/-- State of the animation loop: the calls of `SetConstantPosition` made so far
and the positions of the nodes. -/
structure AnimState where
  calls : List (Node × Vector)
  positions : List Vector
deriving DecidableEq

/-- One call `anim.SetConstantPosition (nodes.Get (k), x, y)`. -/
def animSet (nodes : List Node) (st : AnimState) (k : Int) (x y : Int) : Option AnimState :=
  if k < 0 then none
  else
    match NodeContainer.Get nodes k.toNat with
    | none => none
    | some n =>
      some { calls := st.calls ++ [(n, ⟨x, y, lit 0⟩)],
             positions := SetConstantPosition st.positions n x y }

/-- The loop
`for (int i = 0; i < 5; ++i) { SetConstantPosition (nodes.Get (i), 0.0, j); SetConstantPosition (nodes.Get (i+5), 50.0, j); j += 10.0; }`
from the state in which the counters are `i` and `j`. -/
def animLoop (nodes : List Node) : Nat → Int → Int → AnimState → Option AnimState
  | 0, _, _, _ => none
  | fuel + 1, i, j, st =>
    if i < 5 then
      match animSet nodes st i (lit 0) j with
      | none => none
      | some st1 =>
        match animSet nodes st1 (i + 5) (lit 50) j with
        | none => none
        | some st2 => animLoop nodes fuel (i + 1) (floatAddAssign j (lit 10)) st2
    else some st

/-- The name under which the program registers its own log component, by
`NS_LOG_COMPONENT_DEFINE` (line 47). -/
def ownLogComponent : String := "207281_TusharRathore-IOT-Lab-Exp-2"

/-- The call `LogComponentEnable (name, level)`.  The framework looks the name up among
the registered log components; a name that no registered component carries is a
fatal error, which ends the program. -/
def LogComponentEnable (registered : List String) (enabled : List (String × LogLevel))
    (name : String) (level : LogLevel) : Option (List (String × LogLevel)) :=
  if name ∈ registered then some (enabled ++ [(name, level)]) else none

/-- Lines 59 to 71 of `main`: the block `if (verbose) { ... }` with its ten calls of
`LogComponentEnable`, in order.  The result lists the components enabled. -/
def enableLogComponents (registered : List String) (verbose : Bool) :
    Option (List (String × LogLevel)) :=
  if verbose then do
    let enabled ← LogComponentEnable registered [] "Ping6WsnExample" .LOG_LEVEL_INFO
    let enabled ← LogComponentEnable registered enabled "Ipv6EndPointDemux" .LOG_LEVEL_ALL
    let enabled ← LogComponentEnable registered enabled "Ipv6L3Protocol" .LOG_LEVEL_ALL
    let enabled ← LogComponentEnable registered enabled "Ipv6StaticRouting" .LOG_LEVEL_ALL
    let enabled ← LogComponentEnable registered enabled "Ipv6ListRouting" .LOG_LEVEL_ALL
    let enabled ← LogComponentEnable registered enabled "Ipv6Interface" .LOG_LEVEL_ALL
    let enabled ← LogComponentEnable registered enabled "Icmpv6L4Protocol" .LOG_LEVEL_ALL
    let enabled ← LogComponentEnable registered enabled "Ping" .LOG_LEVEL_ALL
    let enabled ← LogComponentEnable registered enabled "NdiscCache" .LOG_LEVEL_ALL
    let enabled ← LogComponentEnable registered enabled "SixLowPanNetDevice" .LOG_LEVEL_ALL
    some enabled
  else some []

/-- Lines 73 to 160 of `main`: everything from the creation of the nodes to the call
of `Simulator::Run`, given the value of `verbose` and the log components enabled. -/
def configure (fuel : Nat) (verbose : Bool) (logComponents : List (String × LogLevel)) :
    Option Scenario := do
  let nodes := NodeContainer.Create [] 10
  let seed := 167
  let mobilityModel := "ns3::ConstantPositionMobilityModel"
  let nodesPositionAlloc ← positionLoop fuel (lit 0) []
  let mobilityPositions ← MobilityHelper.Install nodesPositionAlloc 0 nodes
  let devContainer := LrWpanHelper.Install nodes
  let panId := 10
  let six1 := SixLowPanHelper.Install devContainer
  let i := Ipv6AddressHelper.Assign six1
  let servAddr ← Ipv6InterfaceContainer.GetAddress i 1 1
  let port := 9
  let serverNode ← NodeContainer.Get nodes 1
  let server : Installed UdpEchoServer :=
    { app := ⟨port⟩, node := serverNode, startTime := Seconds (lit 1), stopTime := Seconds (lit 10) }
  let packetSize := 1024
  let maxPacketCount := 1
  let interPacketInterval := Seconds (lit 1)
  let client := UdpEchoClientHelper.new servAddr port
  let client ← UdpEchoClientHelper.SetAttribute client "MaxPackets" (.UintegerValue maxPacketCount)
  let client ← UdpEchoClientHelper.SetAttribute client "Interval" (.TimeValue interPacketInterval)
  let client ← UdpEchoClientHelper.SetAttribute client "PacketSize" (.UintegerValue packetSize)
  let clientNode ← NodeContainer.Get nodes 0
  let app := UdpEchoClientHelper.SetFill client "Hello"
  let anim ← animLoop nodes fuel 0 (lit 10) ⟨[], mobilityPositions⟩
  some
    { verbose := verbose
      logComponents := logComponents
      nodes := nodes
      seed := seed
      mobilityModel := mobilityModel
      nodesPositionAlloc := nodesPositionAlloc
      mobilityPositions := mobilityPositions
      devContainer := devContainer
      panId := panId
      ipv4StackInstall := false
      six1 := six1
      ipv6Network := "2001:1::"
      ipv6PrefixLength := 64
      i := i
      servAddr := servAddr
      port := port
      server := server
      clientAttributes := client
      client :=
        { app := app, node := clientNode, startTime := Seconds (lit 2), stopTime := Seconds (lit 10) }
      asciiTraceFile := "experiments/E2/udpwsn.tr"
      pcapFiles := "experiments/E2/udpwsn"
      pcapPromiscuous := true
      animFile := "experiments/E2/iot_lab_2.xml"
      animCalls := anim.calls
      nodePositions := anim.positions }

/-- The program.  `components` are the names of the log components the linked
framework modules register, to which line 47 adds the component of the program;
`given` is what the command line says about `--verbose`; `fuel` bounds the number
of iterations of each loop. -/
def main (components : List String) (fuel : Nat) (given : Option Bool) : Option Scenario := do
  let registered := ownLogComponent :: components
  let verbose := false
  let verbose := CommandLine.Parse given verbose
  let logComponents ← enableLogComponents registered verbose
  configure fuel verbose logComponents

/-- The ten log components named in lines 61 to 70, with their levels. -/
def verboseComponents : List (String × LogLevel) :=
  [("Ping6WsnExample", .LOG_LEVEL_INFO),
   ("Ipv6EndPointDemux", .LOG_LEVEL_ALL),
   ("Ipv6L3Protocol", .LOG_LEVEL_ALL),
   ("Ipv6StaticRouting", .LOG_LEVEL_ALL),
   ("Ipv6ListRouting", .LOG_LEVEL_ALL),
   ("Ipv6Interface", .LOG_LEVEL_ALL),
   ("Icmpv6L4Protocol", .LOG_LEVEL_ALL),
   ("Ping", .LOG_LEVEL_ALL),
   ("NdiscCache", .LOG_LEVEL_ALL),
   ("SixLowPanNetDevice", .LOG_LEVEL_ALL)]

/-- The run gets past the logging block: either `verbose` is off, or every log
component the block names is registered. -/
abbrev logRequestsRegistered (components : List String) (given : Option Bool) : Prop :=
  CommandLine.Parse given false = true →
    ∀ c ∈ verboseComponents, c.1 ∈ ownLogComponent :: components

/-- The trace file named in the header comment of the source file (line 29). -/
def headerTraceFile : String := "wsn-ping6.tr"

/-! ## Fuel -/

theorem positionLoop_fuel (k : Nat) :
    ∀ (fuel : Nat) (i : Int) (alloc r : List Vector),
      positionLoop fuel i alloc = some r → positionLoop (fuel + k) i alloc = some r := by
  intro fuel
  induction fuel with
  | zero => intro i alloc r h; simp [positionLoop] at h
  | succ f ih =>
    intro i alloc r h
    rw [Nat.add_right_comm]
    unfold positionLoop at h ⊢
    split
    · rename_i hlt
      rw [if_pos hlt] at h
      exact ih _ _ _ h
    · rename_i hlt
      rw [if_neg hlt] at h
      exact h

theorem animLoop_fuel (nodes : List Node) (k : Nat) :
    ∀ (fuel : Nat) (i j : Int) (st r : AnimState),
      animLoop nodes fuel i j st = some r → animLoop nodes (fuel + k) i j st = some r := by
  intro fuel
  induction fuel with
  | zero => intro i j st r h; simp [animLoop] at h
  | succ f ih =>
    intro i j st r h
    rw [Nat.add_right_comm]
    unfold animLoop at h ⊢
    by_cases hlt : i < 5
    · rw [if_pos hlt] at h ⊢
      cases h1 : animSet nodes st i (lit 0) j with
      | none => rw [h1] at h; simp at h
      | some st1 =>
        rw [h1] at h
        simp only at h ⊢
        cases h2 : animSet nodes st1 (i + 5) (lit 50) j with
        | none => rw [h2] at h; simp at h
        | some st2 =>
          rw [h2] at h
          simp only at h ⊢
          exact ih _ _ _ _ h
    · rw [if_neg hlt] at h ⊢
      exact h

theorem configure_fuel (k fuel : Nat) (verbose : Bool) (logComponents : List (String × LogLevel))
    (s : Scenario) (h : configure fuel verbose logComponents = some s) :
    configure (fuel + k) verbose logComponents = some s := by
  unfold configure at h ⊢
  simp only [Option.bind_eq_bind, Option.bind_eq_some, Option.pure_def] at h ⊢
  obtain ⟨alloc, h1, mob, h2, addr, h3, sn, h4, c1, h5, c2, h6, c3, h7, cn, h8, an, h9, h10⟩ := h
  exact ⟨alloc, positionLoop_fuel k _ _ _ _ h1, mob, h2, addr, h3, sn, h4, c1, h5, c2, h6, c3, h7,
    cn, h8, an, animLoop_fuel _ k _ _ _ _ _ h9, h10⟩

/-! ## The logging block -/

theorem enableLogComponents_off (registered : List String) :
    enableLogComponents registered false = some [] := rfl

/-- A run without the flag, or with the flag set to false, gets past the logging
block whatever is registered. -/
theorem logRequestsRegistered_off (components : List String) :
    logRequestsRegistered components none ∧ logRequestsRegistered components (some false) :=
  ⟨fun hv => by simp [CommandLine.Parse] at hv, fun hv => by simp [CommandLine.Parse] at hv⟩

/-- When every name of the block is registered, the block enables the ten components. -/
theorem enableLogComponents_on (registered : List String)
    (h : ∀ c ∈ verboseComponents, c.1 ∈ registered) :
    enableLogComponents registered true = some verboseComponents := by
  simp only [verboseComponents, List.mem_cons, List.mem_singleton, forall_eq_or_imp,
    forall_eq, List.not_mem_nil, false_imp_iff, implies_true, and_true] at h
  obtain ⟨h0, h1, h2, h3, h4, h5, h6, h7, h8, h9⟩ := h
  simp [enableLogComponents, LogComponentEnable, verboseComponents,
    h0, h1, h2, h3, h4, h5, h6, h7, h8, h9]

/-- When the first name of the block is not registered, the block ends the program. -/
theorem enableLogComponents_unregistered (registered : List String)
    (h : "Ping6WsnExample" ∉ registered) :
    enableLogComponents registered true = none := by
  simp [enableLogComponents, LogComponentEnable, h]

/-- The verbose run ends in the logging block, whatever the fuel, when no linked
module registers a component named "Ping6WsnExample". -/
theorem main_verbose_ends (components : List String) (h : "Ping6WsnExample" ∉ components)
    (fuel : Nat) : main components fuel (some true) = none := by
  have hown : "Ping6WsnExample" ∉ ownLogComponent :: components := by
    intro hm
    rcases List.mem_cons.mp hm with h1 | h1
    · revert h1; decide
    · exact h h1
  simp [main, CommandLine.Parse, enableLogComponents_unregistered _ hown]

/-- A run that gets past the logging block returns, with fuel 11 or more, and a
decidable property checked on its run of `configure` with fuel 11 holds of what it
returns. -/
theorem main_sat_at (P : Scenario → Prop) [DecidablePred P]
    (n : Nat) (components : List String) (given : Option Bool)
    (h : logRequestsRegistered components given)
    (hc : (configure 11 (CommandLine.Parse given false)
      (if CommandLine.Parse given false then verboseComponents else [])).any
        (fun t => decide (P t)) = true) :
    ∃ s, main components (11 + n) given = some s ∧ P s := by
  have hlog : enableLogComponents (ownLogComponent :: components) (CommandLine.Parse given false) =
      some (if CommandLine.Parse given false then verboseComponents else []) := by
    cases hv : CommandLine.Parse given false with
    | false => rfl
    | true => simpa using enableLogComponents_on _ (h hv)
  cases h11 : configure 11 (CommandLine.Parse given false)
      (if CommandLine.Parse given false then verboseComponents else []) with
  | none => rw [h11] at hc; simp at hc
  | some s =>
    rw [h11] at hc
    refine ⟨s, ?_, by simpa using hc⟩
    have := configure_fuel n 11 _ _ s h11
    simp only [main, hlog, Option.bind_eq_bind, Option.some_bind]
    exact this

/-- The same, the property being checked on both runs of `configure`. -/
theorem main_sat (P : Scenario → Prop) [DecidablePred P]
    (hall : ∀ v : Bool,
      (configure 11 v (if v then verboseComponents else [])).any (fun t => decide (P t)) = true)
    (n : Nat) (components : List String) (given : Option Bool)
    (h : logRequestsRegistered components given) :
    ∃ s, main components (11 + n) given = some s ∧ P s :=
  main_sat_at P n components given h (hall _)

/-! ## The rounding functions -/

/-- For a positive `n` below `2 ^ 2 ^ k`, `bitLog k n` is the position of the highest
set bit: `2 ^ bitLog k n ≤ n < 2 ^ (bitLog k n + 1)`. -/
theorem bitLog_spec (k : Nat) :
    ∀ n : Nat, 0 < n → n < 2 ^ 2 ^ k → 2 ^ bitLog k n ≤ n ∧ n < 2 ^ (bitLog k n + 1) := by
  induction k with
  | zero =>
    intro n h0 h1
    have : n = 1 := by simp at h1; omega
    subst this
    simp [bitLog]
  | succ k ih =>
    intro n h0 h1
    have hs : (1 <<< k : Nat) = 2 ^ k := by simp [Nat.shiftLeft_eq]
    have hpos : 0 < 2 ^ 2 ^ k := Nat.pow_pos (by decide)
    unfold bitLog
    simp only [hs, Nat.shiftRight_eq_div_pow]
    by_cases hz : n / 2 ^ 2 ^ k = 0
    · rw [if_pos hz]
      have hlt : n < 2 ^ 2 ^ k := by
        rcases Nat.div_eq_zero_iff hpos |>.mp hz with h
        exact h
      exact ih n h0 hlt
    · rw [if_neg hz]
      have hm0 : 0 < n / 2 ^ 2 ^ k := Nat.pos_of_ne_zero hz
      have hsq : (2 : Nat) ^ 2 ^ (k + 1) = 2 ^ 2 ^ k * 2 ^ 2 ^ k := by
        rw [← pow_add, pow_succ]; congr 1; omega
      have hm1 : n / 2 ^ 2 ^ k < 2 ^ 2 ^ k := by
        rw [Nat.div_lt_iff_lt_mul hpos, ← hsq]; exact h1
      obtain ⟨hlo, hhi⟩ := ih _ hm0 hm1
      constructor
      · rw [pow_add]
        calc 2 ^ 2 ^ k * 2 ^ bitLog k (n / 2 ^ 2 ^ k)
            ≤ 2 ^ 2 ^ k * (n / 2 ^ 2 ^ k) := Nat.mul_le_mul_left _ hlo
          _ ≤ n := Nat.mul_div_le n _
      · have h2 : n / 2 ^ 2 ^ k + 1 ≤ 2 ^ (bitLog k (n / 2 ^ 2 ^ k) + 1) := hhi
        have h3 : n < 2 ^ 2 ^ k * (n / 2 ^ 2 ^ k + 1) := by
          have := Nat.lt_mul_div_succ n hpos
          simpa [Nat.mul_add] using this
        calc n < 2 ^ 2 ^ k * (n / 2 ^ 2 ^ k + 1) := h3
          _ ≤ 2 ^ 2 ^ k * 2 ^ (bitLog k (n / 2 ^ 2 ^ k) + 1) := Nat.mul_le_mul_left _ h2
          _ = 2 ^ (2 ^ k + bitLog k (n / 2 ^ 2 ^ k) + 1) := by rw [← pow_add]; congr 1

/-- The result of `roundHalfEven n q` is a multiple of `q` at most half of `q` away
from `n`. -/
theorem roundHalfEven_near (n : Int) (q : Nat) (hq : 0 < q) :
    (∃ m : Int, roundHalfEven n q = m * q) ∧
      2 * (roundHalfEven n q - n) ≤ q ∧ 2 * (n - roundHalfEven n q) ≤ q := by
  have hq0 : (0 : Int) < q := by exact_mod_cast hq
  have hdecomp : n = n / (q : Int) * q + n % (q : Int) := by
    have := Int.ediv_add_emod n q
    linarith [mul_comm (q : Int) (n / q)]
  have hr0 : 0 ≤ n % (q : Int) := Int.emod_nonneg _ (ne_of_gt hq0)
  have hr1 : n % (q : Int) < q := Int.emod_lt_of_pos _ hq0
  have hup : (n / (q : Int) + 1) * q = n / (q : Int) * q + q := by ring
  unfold roundHalfEven
  simp only
  split_ifs with h1 h2 h3
  · exact ⟨⟨_, rfl⟩, by omega, by omega⟩
  · exact ⟨⟨_, rfl⟩, by omega, by omega⟩
  · exact ⟨⟨_, rfl⟩, by omega, by omega⟩
  · exact ⟨⟨_, rfl⟩, by omega, by omega⟩

/-- The rounding is not always the identity and ties go to the even side: among the
multiples of 4, the number 6 goes to 8 and the number 10 goes to 8 as well. -/
theorem roundHalfEven_near_witness :
    (0 < 4) ∧ roundHalfEven 6 4 = 8 ∧ roundHalfEven 10 4 = 8 ∧
      ((∃ m : Int, roundHalfEven 6 4 = m * (4 : Nat)) ∧
        2 * (roundHalfEven 6 4 - 6) ≤ (4 : Nat) ∧ 2 * (6 - roundHalfEven 6 4) ≤ (4 : Nat)) :=
  ⟨by decide, by decide, by decide, roundHalfEven_near 6 4 (by decide)⟩

/-! ## The floating-point model at work -/

/-- The rounding to `float` is not the identity: `2 ^ 24 + 1` is a tie and goes to
the even neighbour `2 ^ 24`, and `2 ^ 24 + 3` goes up to `2 ^ 24 + 4`. -/
theorem toFloat_rounds :
    toFloat (lit 16777217) = lit 16777216 ∧ toFloat (lit 16777219) = lit 16777220 := by
  decide

/-- One tenth, rounded to `double` and then to `float`, is `13421773 / 2 ^ 27`. -/
theorem toFloat_tenth :
    toFloat (toDouble (lit 1 / 10)) = 13421773 * ((1 <<< (scale - 27) : Nat) : Int) := by
  decide

/-- Every multiple of ten the position loop reaches is stepped exactly. -/
theorem floatAddAssign_tens :
    ∀ k : Fin 10, floatAddAssign (lit (10 * k.val)) (lit 10) = lit (10 * (k.val + 1)) := by
  decide

/-! ## The claims -/

/-- C1, as stated, fails: run without arguments, `main` returns, and after `SetFill`
with "Hello" the packet size of the echo client is 6 and not 1024. -/
theorem C1_counterexample :
    ∃ s, main [] 11 none = some s ∧ s.client.app.PacketSize = 6 ∧
      ¬ (s.client.app.PacketSize = 1024 ∧ s.client.app.MaxPackets = 1 ∧
        s.client.app.Interval = Seconds (lit 1)) :=
  main_sat _ (by decide) 0 [] none (by decide)

/-- C1, amended: in every run that gets past the logging block, the attributes `main`
sets on the client helper are a packet size of 1024 bytes, a maximum packet count of
1 and an interval of 1 second; after `SetFill` of the installed client with "Hello"
the maximum packet count is still 1 and the interval still 1 second, the fill is
"Hello", and the packet size of the client is 6 bytes, the length of the fill and
its terminating zero. -/
theorem C1_client_configuration (n : Nat) (components : List String) (given : Option Bool)
    (h : logRequestsRegistered components given) :
    ∃ s, main components (11 + n) given = some s ∧
      s.clientAttributes.PacketSize = 1024 ∧
      s.clientAttributes.MaxPackets = 1 ∧
      s.clientAttributes.Interval = Seconds (lit 1) ∧
      s.client.app = UdpEchoClientHelper.SetFill s.clientAttributes "Hello" ∧
      s.client.app.MaxPackets = 1 ∧
      s.client.app.Interval = Seconds (lit 1) ∧
      s.client.app.data = some "Hello" ∧
      s.client.app.PacketSize = 6 :=
  main_sat _ (by decide) n components given h

/-- C1 at the run without arguments, no further component being registered. -/
theorem C1_client_configuration_witness :
    logRequestsRegistered [] none ∧
    ∃ s, main [] (11 + 0) none = some s ∧
      s.clientAttributes.PacketSize = 1024 ∧
      s.clientAttributes.MaxPackets = 1 ∧
      s.clientAttributes.Interval = Seconds (lit 1) ∧
      s.client.app = UdpEchoClientHelper.SetFill s.clientAttributes "Hello" ∧
      s.client.app.MaxPackets = 1 ∧
      s.client.app.Interval = Seconds (lit 1) ∧
      s.client.app.data = some "Hello" ∧
      s.client.app.PacketSize = 6 :=
  ⟨by decide, C1_client_configuration 0 [] none (by decide)⟩

/-- C2: in every run that gets past the logging block, the position loop terminates,
having added exactly the ten positions `(10 * k, 0, 0)` for `k = 0, ..., 9`; there are
as many positions as nodes, namely ten, the positions are pairwise distinct, and node
`k` receives the `k`-th. -/
theorem C2_position_loop (n : Nat) (components : List String) (given : Option Bool)
    (h : logRequestsRegistered components given) :
    ∃ s, main components (11 + n) given = some s ∧
      positionLoop (11 + n) (lit 0) [] = some s.nodesPositionAlloc ∧
      s.nodesPositionAlloc = (List.range 10).map (fun k => ⟨lit (10 * k), lit 0, lit 0⟩) ∧
      s.nodesPositionAlloc.length = 10 ∧
      s.nodes.length = 10 ∧
      s.nodesPositionAlloc.length = s.nodes.length ∧
      s.nodesPositionAlloc.Nodup ∧
      s.mobilityPositions.length = s.nodes.length ∧
      s.mobilityPositions.Nodup ∧
      ∀ k : Fin 10, s.mobilityPositions.get? k.val = some ⟨lit (10 * k.val), lit 0, lit 0⟩ := by
  obtain ⟨s, hs, h11, hrest⟩ := main_sat
    (fun s => positionLoop 11 (lit 0) [] = some s.nodesPositionAlloc ∧
      s.nodesPositionAlloc = (List.range 10).map (fun k => ⟨lit (10 * k), lit 0, lit 0⟩) ∧
      s.nodesPositionAlloc.length = 10 ∧
      s.nodes.length = 10 ∧
      s.nodesPositionAlloc.length = s.nodes.length ∧
      s.nodesPositionAlloc.Nodup ∧
      s.mobilityPositions.length = s.nodes.length ∧
      s.mobilityPositions.Nodup ∧
      ∀ k : Fin 10, s.mobilityPositions.get? k.val = some ⟨lit (10 * k.val), lit 0, lit 0⟩)
    (by decide) n components given h
  exact ⟨s, hs, positionLoop_fuel n 11 _ _ _ h11, hrest⟩

/-- C2 at the run without arguments, no further component being registered. -/
theorem C2_position_loop_witness :
    logRequestsRegistered [] none ∧
    ∃ s, main [] (11 + 0) none = some s ∧
      positionLoop (11 + 0) (lit 0) [] = some s.nodesPositionAlloc ∧
      s.nodesPositionAlloc = (List.range 10).map (fun k => ⟨lit (10 * k), lit 0, lit 0⟩) ∧
      s.nodesPositionAlloc.length = 10 ∧
      s.nodes.length = 10 ∧
      s.nodesPositionAlloc.length = s.nodes.length ∧
      s.nodesPositionAlloc.Nodup ∧
      s.mobilityPositions.length = s.nodes.length ∧
      s.mobilityPositions.Nodup ∧
      ∀ k : Fin 10, s.mobilityPositions.get? k.val = some ⟨lit (10 * k.val), lit 0, lit 0⟩ :=
  ⟨by decide, C2_position_loop 0 [] none (by decide)⟩

/-- C3: in every run that gets past the logging block, the echo server is installed on
node 1 and the client on node 0, two distinct nodes; the destination address of the
client is the address taken from interface 1 of the interface container, whose device
sits on the node of the server; the destination port of the client is the listening
port of the server, 9. -/
theorem C3_echo_endpoints (n : Nat) (components : List String) (given : Option Bool)
    (h : logRequestsRegistered components given) :
    ∃ s, main components (11 + n) given = some s ∧
      s.server.node.id = 1 ∧
      s.client.node.id = 0 ∧
      s.server.node ≠ s.client.node ∧
      NodeContainer.Get s.nodes 1 = some s.server.node ∧
      NodeContainer.Get s.nodes 0 = some s.client.node ∧
      s.client.app.RemoteAddress = s.servAddr ∧
      Ipv6InterfaceContainer.GetAddress s.i 1 1 = some s.servAddr ∧
      s.servAddr.interfaceIndex = 1 ∧
      s.servAddr.addressIndex = 1 ∧
      s.servAddr.interface.device.node = s.server.node ∧
      s.client.app.RemotePort = s.server.app.Port ∧
      s.server.app.Port = 9 :=
  main_sat _ (by decide) n components given h

/-- C3 at the run without arguments, no further component being registered. -/
theorem C3_echo_endpoints_witness :
    logRequestsRegistered [] none ∧
    ∃ s, main [] (11 + 0) none = some s ∧
      s.server.node.id = 1 ∧
      s.client.node.id = 0 ∧
      s.server.node ≠ s.client.node ∧
      NodeContainer.Get s.nodes 1 = some s.server.node ∧
      NodeContainer.Get s.nodes 0 = some s.client.node ∧
      s.client.app.RemoteAddress = s.servAddr ∧
      Ipv6InterfaceContainer.GetAddress s.i 1 1 = some s.servAddr ∧
      s.servAddr.interfaceIndex = 1 ∧
      s.servAddr.addressIndex = 1 ∧
      s.servAddr.interface.device.node = s.server.node ∧
      s.client.app.RemotePort = s.server.app.Port ∧
      s.server.app.Port = 9 :=
  ⟨by decide, C3_echo_endpoints 0 [] none (by decide)⟩

/-- C4: in every run that gets past the logging block, the server runs from 1 s to 10 s
and the client from 2 s to 10 s; each starts strictly before it stops, the client
starts strictly after the server, and the window of the client lies inside the window
of the server. -/
theorem C4_application_windows (n : Nat) (components : List String) (given : Option Bool)
    (h : logRequestsRegistered components given) :
    ∃ s, main components (11 + n) given = some s ∧
      s.server.startTime = Seconds (lit 1) ∧
      s.server.stopTime = Seconds (lit 10) ∧
      s.client.startTime = Seconds (lit 2) ∧
      s.client.stopTime = Seconds (lit 10) ∧
      s.server.startTime.seconds < s.server.stopTime.seconds ∧
      s.client.startTime.seconds < s.client.stopTime.seconds ∧
      s.server.startTime.seconds < s.client.startTime.seconds ∧
      s.server.startTime.seconds ≤ s.client.startTime.seconds ∧
      s.client.stopTime.seconds ≤ s.server.stopTime.seconds :=
  main_sat _ (by decide) n components given h

/-- C4 at the run without arguments, no further component being registered. -/
theorem C4_application_windows_witness :
    logRequestsRegistered [] none ∧
    ∃ s, main [] (11 + 0) none = some s ∧
      s.server.startTime = Seconds (lit 1) ∧
      s.server.stopTime = Seconds (lit 10) ∧
      s.client.startTime = Seconds (lit 2) ∧
      s.client.stopTime = Seconds (lit 10) ∧
      s.server.startTime.seconds < s.server.stopTime.seconds ∧
      s.client.startTime.seconds < s.client.stopTime.seconds ∧
      s.server.startTime.seconds < s.client.startTime.seconds ∧
      s.server.startTime.seconds ≤ s.client.startTime.seconds ∧
      s.client.stopTime.seconds ≤ s.server.stopTime.seconds :=
  ⟨by decide, C4_application_windows 0 [] none (by decide)⟩

/-- C5: in every run that gets past the logging block, whatever the command line, the
ASCII trace, the PCAP files and the animation file all lie in the directory
"experiments/E2/", under the base names "udpwsn.tr", "udpwsn" and "iot_lab_2.xml". -/
theorem C5_output_paths (n : Nat) (components : List String) (given : Option Bool)
    (h : logRequestsRegistered components given) :
    ∃ s, main components (11 + n) given = some s ∧
      s.asciiTraceFile = "experiments/E2/" ++ "udpwsn.tr" ∧
      s.pcapFiles = "experiments/E2/" ++ "udpwsn" ∧
      s.animFile = "experiments/E2/" ++ "iot_lab_2.xml" ∧
      '/' ∉ "udpwsn.tr".toList ∧ '/' ∉ "udpwsn".toList ∧ '/' ∉ "iot_lab_2.xml".toList :=
  main_sat _ (by decide) n components given h

/-- C5 at the run without arguments, no further component being registered. -/
theorem C5_output_paths_witness :
    logRequestsRegistered [] none ∧
    ∃ s, main [] (11 + 0) none = some s ∧
      s.asciiTraceFile = "experiments/E2/" ++ "udpwsn.tr" ∧
      s.pcapFiles = "experiments/E2/" ++ "udpwsn" ∧
      s.animFile = "experiments/E2/" ++ "iot_lab_2.xml" ∧
      '/' ∉ "udpwsn.tr".toList ∧ '/' ∉ "udpwsn".toList ∧ '/' ∉ "iot_lab_2.xml".toList :=
  ⟨by decide, C5_output_paths 0 [] none (by decide)⟩

/-- What of C6 holds: the flag is off unless the command line sets it, and with the
flag off `main` enables no log component; if moreover every one of the ten names of
the logging block is registered, then with the flag on `main` enables exactly the
ten listed components and everything else it hands to the framework is the same for
both values of the flag. -/
theorem verbose_only_logging (n : Nat) (components : List String)
    (h : ∀ c ∈ verboseComponents, c.1 ∈ ownLogComponent :: components) :
    ∃ sDefault sOff sOn,
      main components (11 + n) none = some sDefault ∧
      main components (11 + n) (some false) = some sOff ∧
      main components (11 + n) (some true) = some sOn ∧
      sDefault.verbose = false ∧
      sDefault = sOff ∧
      sOff.logComponents = [] ∧
      sOn.verbose = true ∧
      sOn.logComponents.map Prod.fst =
        ["Ping6WsnExample", "Ipv6EndPointDemux", "Ipv6L3Protocol", "Ipv6StaticRouting",
         "Ipv6ListRouting", "Ipv6Interface", "Icmpv6L4Protocol", "Ping", "NdiscCache",
         "SixLowPanNetDevice"] ∧
      sOn.logComponents.length = 10 ∧
      { sOn with verbose := false, logComponents := [] } = sOff := by
  have key : (configure 11 true verboseComponents).map
        (fun s => { s with verbose := false, logComponents := [] }) =
      configure 11 false [] := by decide
  obtain ⟨sD, hD, hD11, hDv, hDl⟩ :=
    main_sat_at (fun s => configure 11 false [] = some s ∧ s.verbose = false ∧
        s.logComponents = []) n components none (fun hv => by simp [CommandLine.Parse] at hv)
      (by decide)
  obtain ⟨sF, hF, hF11, -, -⟩ :=
    main_sat_at (fun s => configure 11 false [] = some s ∧ s.verbose = false ∧
        s.logComponents = []) n components (some false)
      (fun hv => by simp [CommandLine.Parse] at hv) (by decide)
  obtain ⟨sT, hT, hT11, hTv, hTn, hTl⟩ :=
    main_sat_at (fun s => configure 11 true verboseComponents = some s ∧ s.verbose = true ∧
        s.logComponents.map Prod.fst =
        ["Ping6WsnExample", "Ipv6EndPointDemux", "Ipv6L3Protocol", "Ipv6StaticRouting",
         "Ipv6ListRouting", "Ipv6Interface", "Icmpv6L4Protocol", "Ping", "NdiscCache",
         "SixLowPanNetDevice"] ∧ s.logComponents.length = 10) n components
      (some true) (fun _ => h) (by decide)
  have hDF : sD = sF := Option.some.inj (hD11.symm.trans hF11)
  rw [hT11, hF11] at key
  simp only [Option.map_some', Option.some.injEq] at key
  exact ⟨sD, sF, sT, hD, hF, hT, hDv, hDF, hDF ▸ hDl, hTv, hTn, hTl, key⟩

/-- C6 fails on the code at the run with `--verbose`, the linked modules registering
the nine other names of the logging block: line 61 enables "Ping6WsnExample", a name
no registered component carries (line 47 registers the component of the program under
another name), so the logging block ends the program there, whatever the fuel, and
`main` enables no component and hands nothing else to the framework.  The run without
the flag returns, with the flag off and no log component enabled. -/
theorem C6_verbose_run_ends :
    "Ping6WsnExample" ≠ ownLogComponent ∧
    LogComponentEnable
      (ownLogComponent ::
        ["Ipv6EndPointDemux", "Ipv6L3Protocol", "Ipv6StaticRouting", "Ipv6ListRouting",
         "Ipv6Interface", "Icmpv6L4Protocol", "Ping", "NdiscCache", "SixLowPanNetDevice"])
      [] "Ping6WsnExample" .LOG_LEVEL_INFO = none ∧
    (∀ fuel : Nat,
      main ["Ipv6EndPointDemux", "Ipv6L3Protocol", "Ipv6StaticRouting", "Ipv6ListRouting",
         "Ipv6Interface", "Icmpv6L4Protocol", "Ping", "NdiscCache", "SixLowPanNetDevice"]
        fuel (some true) = none) ∧
    ∃ s,
      main ["Ipv6EndPointDemux", "Ipv6L3Protocol", "Ipv6StaticRouting", "Ipv6ListRouting",
         "Ipv6Interface", "Icmpv6L4Protocol", "Ping", "NdiscCache", "SixLowPanNetDevice"]
        11 none = some s ∧ s.verbose = false ∧ s.logComponents = [] :=
  ⟨by decide, by decide, fun fuel => main_verbose_ends _ (by decide) fuel,
    main_sat_at _ 0 _ none (by decide) (by decide)⟩

/-- C7, as stated, fails: run without arguments, `main` returns, and the ASCII trace
file it passes to the trace helper is "experiments/E2/udpwsn.tr", which is not the
"wsn-ping6.tr" of the header comment, nor that name inside the output directory. -/
theorem C7_counterexample :
    ∃ s, main [] 11 none = some s ∧
      s.asciiTraceFile = "experiments/E2/udpwsn.tr" ∧
      s.asciiTraceFile ≠ headerTraceFile ∧
      s.asciiTraceFile ≠ "experiments/E2/" ++ headerTraceFile :=
  main_sat _ (by decide) 0 [] none (by decide)

/-- C7, amended: in every run that gets past the logging block, the ASCII trace file
`main` passes to the trace helper is "experiments/E2/udpwsn.tr", whatever the command
line; the name "wsn-ping6.tr" of the header comment is not used for any output file. -/
theorem C7_trace_file (n : Nat) (components : List String) (given : Option Bool)
    (h : logRequestsRegistered components given) :
    ∃ s, main components (11 + n) given = some s ∧
      s.asciiTraceFile = "experiments/E2/udpwsn.tr" ∧
      s.asciiTraceFile ≠ headerTraceFile ∧
      s.pcapFiles ≠ headerTraceFile ∧
      s.animFile ≠ headerTraceFile :=
  main_sat _ (by decide) n components given h

/-- C7 at the run without arguments, no further component being registered. -/
theorem C7_trace_file_witness :
    logRequestsRegistered [] none ∧
    ∃ s, main [] (11 + 0) none = some s ∧
      s.asciiTraceFile = "experiments/E2/udpwsn.tr" ∧
      s.asciiTraceFile ≠ headerTraceFile ∧
      s.pcapFiles ≠ headerTraceFile ∧
      s.animFile ≠ headerTraceFile :=
  ⟨by decide, C7_trace_file 0 [] none (by decide)⟩

/-- C8: in every run that gets past the logging block, the animation loop positions
every one of the ten nodes exactly once: the node indices it passes are a permutation
of `0, ..., 9`, all inside the container of ten nodes; node `k` is given
`(0, 10 * (k + 1))` for `k < 5` and `(50, 10 * (k - 4))` for `k ≥ 5`; the ten
positions are pairwise distinct. -/
theorem C8_animation_loop (n : Nat) (components : List String) (given : Option Bool)
    (h : logRequestsRegistered components given) :
    ∃ s, main components (11 + n) given = some s ∧
      s.nodes.length = 10 ∧
      s.animCalls.map (fun c => c.1.id) = [0, 5, 1, 6, 2, 7, 3, 8, 4, 9] ∧
      (s.animCalls.map fun c => c.1.id).Perm (List.range 10) ∧
      (∀ c ∈ s.animCalls, c.1.id < s.nodes.length) ∧
      (∀ k : Fin 10, s.animCalls.filter (fun c => c.1.id = k.val) =
        [(⟨k.val⟩, if k.val < 5 then ⟨lit 0, lit (10 * (k.val + 1)), lit 0⟩
                   else ⟨lit 50, lit (10 * (k.val - 4)), lit 0⟩)]) ∧
      (s.animCalls.map fun c => c.2).Nodup :=
  main_sat _ (by decide) n components given h

/-- C8 at the run without arguments, no further component being registered. -/
theorem C8_animation_loop_witness :
    logRequestsRegistered [] none ∧
    ∃ s, main [] (11 + 0) none = some s ∧
      s.nodes.length = 10 ∧
      s.animCalls.map (fun c => c.1.id) = [0, 5, 1, 6, 2, 7, 3, 8, 4, 9] ∧
      (s.animCalls.map fun c => c.1.id).Perm (List.range 10) ∧
      (∀ c ∈ s.animCalls, c.1.id < s.nodes.length) ∧
      (∀ k : Fin 10, s.animCalls.filter (fun c => c.1.id = k.val) =
        [(⟨k.val⟩, if k.val < 5 then ⟨lit 0, lit (10 * (k.val + 1)), lit 0⟩
                   else ⟨lit 50, lit (10 * (k.val - 4)), lit 0⟩)]) ∧
      (s.animCalls.map fun c => c.2).Nodup :=
  ⟨by decide, C8_animation_loop 0 [] none (by decide)⟩

/-- C9: in every run that gets past the logging block, for every node index `k` in
`0, ..., 9` the position passed for node `k` in the animation loop differs from the
`k`-th position of the position allocator, `(10 * k, 0, 0)`, which is the position
the mobility helper installed; the position of node `k` at the end of `main` is the
position of the two-column grid and not the position on the line. -/
theorem C9_grid_overrides_line (n : Nat) (components : List String) (given : Option Bool)
    (h : logRequestsRegistered components given) :
    ∃ s, main components (11 + n) given = some s ∧
      (∀ k : Fin 10, s.nodesPositionAlloc.get? k.val = some ⟨lit (10 * k.val), lit 0, lit 0⟩) ∧
      (∀ k : Fin 10, s.mobilityPositions.get? k.val = s.nodesPositionAlloc.get? k.val) ∧
      (∀ k : Fin 10, ∀ c ∈ s.animCalls, c.1.id = k.val →
        s.nodesPositionAlloc.get? k.val ≠ some c.2) ∧
      (∀ k : Fin 10, ∃ c ∈ s.animCalls, c.1.id = k.val ∧
        s.nodePositions.get? k.val = some c.2) ∧
      (∀ k : Fin 10, s.nodePositions.get? k.val =
        some (if k.val < 5 then ⟨lit 0, lit (10 * (k.val + 1)), lit 0⟩
              else ⟨lit 50, lit (10 * (k.val - 4)), lit 0⟩)) ∧
      (∀ k : Fin 10, s.nodePositions.get? k.val ≠ s.mobilityPositions.get? k.val) ∧
      (∀ p ∈ s.nodePositions, p ∉ s.nodesPositionAlloc) :=
  main_sat _ (by decide) n components given h

/-- C9 at the run without arguments, no further component being registered. -/
theorem C9_grid_overrides_line_witness :
    logRequestsRegistered [] none ∧
    ∃ s, main [] (11 + 0) none = some s ∧
      (∀ k : Fin 10, s.nodesPositionAlloc.get? k.val = some ⟨lit (10 * k.val), lit 0, lit 0⟩) ∧
      (∀ k : Fin 10, s.mobilityPositions.get? k.val = s.nodesPositionAlloc.get? k.val) ∧
      (∀ k : Fin 10, ∀ c ∈ s.animCalls, c.1.id = k.val →
        s.nodesPositionAlloc.get? k.val ≠ some c.2) ∧
      (∀ k : Fin 10, ∃ c ∈ s.animCalls, c.1.id = k.val ∧
        s.nodePositions.get? k.val = some c.2) ∧
      (∀ k : Fin 10, s.nodePositions.get? k.val =
        some (if k.val < 5 then ⟨lit 0, lit (10 * (k.val + 1)), lit 0⟩
              else ⟨lit 50, lit (10 * (k.val - 4)), lit 0⟩)) ∧
      (∀ k : Fin 10, s.nodePositions.get? k.val ≠ s.mobilityPositions.get? k.val) ∧
      (∀ p ∈ s.nodePositions, p ∉ s.nodesPositionAlloc) :=
  ⟨by decide, C9_grid_overrides_line 0 [] none (by decide)⟩

end IotExp2
